import Mathlib

/-!
Verification of the nmeta traffic-classification policy engine against its
natural-language specification.

The repository supplies `nmeta/switches.py` (OpenFlow switch abstraction) in
full, together with the unit tests `tests/test_policy.py` and
`tests/test_tc_identity.py`.  The policy engine itself (`policy.py`,
`tc_identity.py`) is not part of the supplied sources, so those components are
modelled from the specification's words; every such definition is marked with
`Modelled from the spec:` in its doc comment.  Definitions taken from
`switches.py` cite the source lines.

All string processing is done over `List Char` with structurally recursive
functions so that concrete witnesses evaluate by `decide`.
-/

deriving instance DecidableEq for Except

namespace Nmeta

/-! ## Generic string utilities (used by the Python-string modelling) -/

/-- Split a character list at every occurrence of `sep`, keeping empty pieces,
mirroring Python's `str.split(sep)` (so `"".split(sep) = [""]`). -/
def splitOnChar (sep : Char) : List Char → List (List Char)
  | [] => [[]]
  | c :: cs =>
    let r := splitOnChar sep cs
    if c = sep then [] :: r
    else
      match r with
      | [] => [[c]]
      | g :: gs => (c :: g) :: gs

/-- A decimal digit test matching Python's `str.isdigit` for ASCII digits. -/
def isDigitChar (c : Char) : Bool := '0' ≤ c && c ≤ '9'

/-- Numeric value of a decimal digit. -/
def digitVal (c : Char) : Nat := c.toNat - '0'.toNat

/-- Parse a non-empty all-digit character list as a decimal natural number,
mirroring Python's `int(s)` on non-negative input (`none` models the
`ValueError` raised on malformed input). -/
def parseDec (l : List Char) : Option Nat :=
  if l = [] then none
  else if l.all isDigitChar then
    some (l.foldl (fun acc c => acc * 10 + digitVal c) 0)
  else none

/-- A hexadecimal digit test. -/
def isHexChar (c : Char) : Bool :=
  isDigitChar c || ('a' ≤ c && c ≤ 'f') || ('A' ≤ c && c ≤ 'F')

/-- Numeric value of a hexadecimal digit. -/
def hexVal (c : Char) : Nat :=
  if isDigitChar c then digitVal c
  else if 'a' ≤ c && c ≤ 'f' then c.toNat - 'a'.toNat + 10
  else c.toNat - 'A'.toNat + 10

/-- Parse a non-empty all-hex character list as a natural number, mirroring
Python's `int(s, 16)` on non-negative input. -/
def parseHex (l : List Char) : Option Nat :=
  if l = [] then none
  else if l.all isHexChar then
    some (l.foldl (fun acc c => acc * 16 + hexVal c) 0)
  else none

/-- Strip ASCII space characters from both ends, mirroring `str.strip()` as far
as the policy port specifications need it. -/
def stripSpaces (l : List Char) : List Char :=
  ((l.dropWhile (· = ' ')).reverse.dropWhile (· = ' ')).reverse

/-! ## Regular expressions

Modelled from the spec: the policy engine's `_re`-suffixed identity
classifiers compile their value with Python's `re` module and test it with
unanchored partial matching (`re.search` semantics).  `tc_identity.py` is not
among the supplied sources, so the matcher is modelled here: literals, `.`,
postfix `*`, backslash escapes and a leading `^` anchor — the constructs the
specification's examples exercise. -/

/-- A single-character regex atom: a literal character or the wildcard `.`. -/
inductive RAtom where
  | lit (c : Char)
  | dot
deriving DecidableEq

/-- A regex token: an atom matched exactly once, or an atom under a postfix
Kleene star. -/
inductive RTok where
  | once (a : RAtom)
  | star (a : RAtom)
deriving DecidableEq

/-- Compile a pattern (with any leading `^` already removed) into tokens.
`none` models a compile error (dangling escape or star). -/
def tokenize : List Char → Option (List RTok)
  | [] => some []
  | '\\' :: c :: '*' :: rest => (tokenize rest).map (RTok.star (RAtom.lit c) :: ·)
  | '\\' :: c :: rest => (tokenize rest).map (RTok.once (RAtom.lit c) :: ·)
  | ['\\'] => none
  | '.' :: '*' :: rest => (tokenize rest).map (RTok.star RAtom.dot :: ·)
  | '.' :: rest => (tokenize rest).map (RTok.once RAtom.dot :: ·)
  | '*' :: _ => none
  | c :: '*' :: rest => (tokenize rest).map (RTok.star (RAtom.lit c) :: ·)
  | c :: rest => (tokenize rest).map (RTok.once (RAtom.lit c) :: ·)

/-- Does an atom match one character? -/
def matchAtom : RAtom → Char → Bool
  | RAtom.lit c, x => c = x
  | RAtom.dot, _ => true

/-- Match zero or more occurrences of atom `a` followed by whatever the
continuation `f` accepts (the continuation is the matcher for the rest of the
token list). -/
def matchStar (a : RAtom) (f : List Char → Bool) : List Char → Bool
  | [] => f []
  | x :: t => f (x :: t) || (matchAtom a x && matchStar a f t)

/-- Match a token list against a prefix-anchored text position (classic
backtracking matcher; the remainder of the text may be left unconsumed, as in
`re.search`). -/
def matchToks : List RTok → List Char → Bool
  | [] => fun _ => true
  | RTok.once a :: rest => fun t =>
    match t with
    | [] => false
    | x :: t' => matchAtom a x && matchToks rest t'
  | RTok.star a :: rest => matchStar a (matchToks rest)

/-- Try to match at every start position of the text (unanchored search). -/
def searchAt (toks : List RTok) : List Char → Bool
  | [] => matchToks toks []
  | x :: t => matchToks toks (x :: t) || searchAt toks t

/-- Modelled from the spec: Python `re.search(pattern, text)` semantics —
unanchored partial matching, with `^` anchoring at the start of the text.
Returns `none` on a pattern that fails to compile. -/
def regexSearch (pattern text : String) : Option Bool :=
  match pattern.data with
  | '^' :: rest => (tokenize rest).map (fun toks => matchToks toks text.data)
  | l => (tokenize l).map (fun toks => searchAt toks text.data)

/-! ## Identity correlation (`tc_identity.py`, modelled from the spec) -/

/-- Modelled from the spec: a harvested identity record as exposed by the
external `identities` store (`harvest_type` tags the harvesting protocol;
LLDP records carry a host name, DNS records a service name/alias). -/
structure IdentityRecord where
  harvest_type : String
  host_name : String
  service_name : String
  service_alias : String
  mac_address : String
  ip_address : String
deriving DecidableEq

/-- Modelled from the spec: the packet header fields of the current flow that
classifier matching consults. Transport ports are optional so that a
classifier referencing a field absent from the packet is a non-match, not an
error. -/
structure PacketFields where
  eth_src : String
  eth_dst : String
  ip_src : String
  ip_dst : String
  tcp_src : Option Nat
  tcp_dst : Option Nat
deriving DecidableEq

/-- Modelled from the spec: an LLDP-sourced record is correlated to the
current flow when its MAC address is one of the flow's Ethernet endpoints. -/
def lldpCorrelated (pkt : PacketFields) (r : IdentityRecord) : Bool :=
  r.mac_address = pkt.eth_src || r.mac_address = pkt.eth_dst

/-- Modelled from the spec: a DNS-sourced record is correlated to the current
flow when its IP address is one of the flow's IP endpoints. -/
def dnsCorrelated (pkt : PacketFields) (r : IdentityRecord) : Bool :=
  r.ip_address = pkt.ip_src || r.ip_address = pkt.ip_dst

/-- Modelled from the spec: `IdentityInspect.check_identity(classifier_type,
value, flow_packet, identities)`.  Exact classifier types perform a
case-sensitive equality lookup on the relevant field (host name for LLDP,
service name/alias for DNS) of a record correlated to the flow's endpoint;
`_re`-suffixed types match the stored field against `value` compiled as a
regular expression under unanchored partial matching; no store hit yields
`false` rather than an error. -/
def check_identity (ctype value : String) (pkt : PacketFields)
    (ids : List IdentityRecord) : Bool :=
  if ctype = "identity_lldp_systemname" then
    ids.any (fun r => r.harvest_type = "LLDP" && lldpCorrelated pkt r &&
      r.host_name = value)
  else if ctype = "identity_lldp_systemname_re" then
    ids.any (fun r => r.harvest_type = "LLDP" && lldpCorrelated pkt r &&
      (regexSearch value r.host_name).getD false)
  else if ctype = "identity_service_dns" then
    ids.any (fun r => r.harvest_type = "DNS" && dnsCorrelated pkt r &&
      (r.service_name = value || r.service_alias = value))
  else if ctype = "identity_service_dns_re" then
    ids.any (fun r => r.harvest_type = "DNS" && dnsCorrelated pkt r &&
      ((regexSearch value r.service_name).getD false ||
       (regexSearch value r.service_alias).getD false))
  else false

/-! ## Condition/rule evaluation engine (`policy.py`, modelled from the spec) -/

/-- Modelled from the spec: the `match_type` combinator of a condition or
rule, one of `all`, `any`, `none`. -/
inductive MatchType where
  | all
  | any
  | none
deriving DecidableEq

/-- Modelled from the spec: combine the child booleans under a `match_type`:
`all` is logical AND, `any` is logical OR, `none` is true iff zero children
match. -/
def combineMatches : MatchType → List Bool → Bool
  | MatchType.all, l => l.all id
  | MatchType.any, l => l.any id
  | MatchType.none, l => !(l.any id)

/-- Modelled from the spec: a single classifier — a header-field test, an
identity test (exact or regex), or a named custom (statistical) classifier
whose accumulation is external to this core. -/
inductive Classifier where
  | tcp_src (v : Nat)
  | tcp_dst (v : Nat)
  | eth_src (v : String)
  | eth_dst (v : String)
  | ip_src (v : String)
  | ip_dst (v : String)
  | identity_lldp_systemname (v : String)
  | identity_lldp_systemname_re (v : String)
  | identity_service_dns (v : String)
  | identity_service_dns_re (v : String)
  | custom (name : String)
deriving DecidableEq

/-- Modelled from the spec: the per-flow evaluation context — the current
packet's header fields plus the externally accumulated best-effort boolean for
each named custom classifier. -/
structure FlowState where
  pkt : PacketFields
  custom : String → Bool

/-- Modelled from the spec: evaluate one classifier against the flow,
returning (matched, continue_to_inspect).  A header-field classifier against a
packet lacking that field is a non-match, not an error; a custom classifier
reports the externally accumulated best-effort boolean and always signals
`continue_to_inspect`. -/
def checkClassifier (f : FlowState) (ids : List IdentityRecord) :
    Classifier → Bool × Bool
  | Classifier.tcp_src v => (f.pkt.tcp_src = some v, false)
  | Classifier.tcp_dst v => (f.pkt.tcp_dst = some v, false)
  | Classifier.eth_src v => (f.pkt.eth_src = v, false)
  | Classifier.eth_dst v => (f.pkt.eth_dst = v, false)
  | Classifier.ip_src v => (f.pkt.ip_src = v, false)
  | Classifier.ip_dst v => (f.pkt.ip_dst = v, false)
  | Classifier.identity_lldp_systemname v =>
    (check_identity "identity_lldp_systemname" v f.pkt ids, false)
  | Classifier.identity_lldp_systemname_re v =>
    (check_identity "identity_lldp_systemname_re" v f.pkt ids, false)
  | Classifier.identity_service_dns v =>
    (check_identity "identity_service_dns" v f.pkt ids, false)
  | Classifier.identity_service_dns_re v =>
    (check_identity "identity_service_dns_re" v f.pkt ids, false)
  | Classifier.custom name => (f.custom name, true)

/-- Modelled from the spec: a TC condition — classifiers combined under a
`match_type`. -/
structure TCCondition where
  match_type : MatchType
  classifiers_list : List Classifier
deriving DecidableEq

/-- Modelled from the spec: a TC rule — conditions combined under the rule's
own `match_type`, carrying an actions mapping (the classification tag is
derived from the `set_desc` action). -/
structure TCRule where
  match_type : MatchType
  conditions_list : List TCCondition
  actions : List (String × String)
deriving DecidableEq

/-- Modelled from the spec: the ephemeral per-evaluation verdict. -/
structure TCResult where
  matched : Bool
  continue_to_inspect : Bool
  classification_tag : String
  actions : List (String × String)
deriving DecidableEq

/-- Modelled from the spec: `TCCondition.check_tc_condition(flow, identities)`
— evaluate every classifier, combine the booleans by the condition's
`match_type`; `continue_to_inspect` is true iff some classifier is
inconclusive; conditions never carry a tag or actions. -/
def check_tc_condition (c : TCCondition) (f : FlowState)
    (ids : List IdentityRecord) : TCResult :=
  let pairs := c.classifiers_list.map (checkClassifier f ids)
  { matched := combineMatches c.match_type (pairs.map Prod.fst)
    continue_to_inspect := pairs.any Prod.snd
    classification_tag := ""
    actions := [] }

/-- Modelled from the spec: the classification tag of a rule, derived from
its `set_desc` action. -/
def ruleTag (r : TCRule) : String := (r.actions.lookup "set_desc").getD ""

/-- Modelled from the spec: `TCRule.check_tc_rule(flow, identities)` —
evaluate all conditions, combine by the rule's `match_type`; on overall match
return the rule's tag and a copy of its actions, on no match an empty tag and
empty actions; `continue_to_inspect` is dominant whenever any classifier in
the evaluated conditions is inconclusive. -/
def check_tc_rule (r : TCRule) (f : FlowState)
    (ids : List IdentityRecord) : TCResult :=
  let results := r.conditions_list.map (check_tc_condition · f ids)
  let m := combineMatches r.match_type (results.map TCResult.matched)
  { matched := m
    continue_to_inspect := results.any TCResult.continue_to_inspect
    classification_tag := if m then ruleTag r else ""
    actions := if m then r.actions else [] }

/-- Modelled from the spec: the classification state persisted on a flow
(`classified = 0` means "inconclusive, inspect more packets", `1` means a
final verdict, including the explicit unclassified terminal state). -/
structure Classification where
  classified : Nat
  classification_tag : String
  actions : List (String × String)
deriving DecidableEq

/-- Modelled from the spec: `Policy.check_policy(flow, identities)` — walk the
configured rules in document order and stop at the first rule whose result
matches, writing `classified = 1` (or `0` when that result's
`continue_to_inspect` is set, leaving the verdict open), the rule's tag and a
copy of its actions; when every rule is exhausted with no match, write
`classified = 1` with an empty tag and empty actions. -/
def check_policy (rules : List TCRule) (f : FlowState)
    (ids : List IdentityRecord) : Classification :=
  match rules with
  | [] => { classified := 1, classification_tag := "", actions := [] }
  | r :: rest =>
    let res := check_tc_rule r f ids
    if res.matched then
      { classified := if res.continue_to_inspect then 0 else 1
        classification_tag := res.classification_tag
        actions := res.actions }
    else check_policy rest f ids

/-! ## Policy document validator (`policy.py validate`, modelled from the spec) -/

/-- Modelled from the spec: a policy document fragment — an atomic value or a
mapping from keys to sub-fragments (the YAML tree after loading). -/
inductive PolValue where
  | atom (s : String)
  | doc (entries : List (String × PolValue))

/-- Modelled from the spec: a per-key value constraint — any atomic value, an
enumerated set of allowed atomic values, or a nested closed schema with its
own required and optional keys. -/
inductive Constraint where
  | anyVal
  | oneOf (vs : List String)
  | nested (required : List (String × Constraint))
           (optionalKeys : List (String × Constraint))

mutual

/-- Modelled from the spec: does a value satisfy a constraint?  A nested
schema is closed: every required key must be present and every present key
must be a known (required or optional) key whose value satisfies its own
constraint. -/
def satisfies : Constraint → PolValue → Bool
  | Constraint.anyVal, _ => true
  | Constraint.oneOf vs, PolValue.atom s => vs.contains s
  | Constraint.oneOf _, PolValue.doc _ => false
  | Constraint.nested _ _, PolValue.atom _ => false
  | Constraint.nested req opt, PolValue.doc entries =>
    req.all (fun kc => entries.any (fun e => e.1 = kc.1)) &&
      entriesOK (req ++ opt) entries

/-- Check each document entry against the schema's key table: unknown keys
are rejected, known keys recurse into their constraint. -/
def entriesOK : List (String × Constraint) → List (String × PolValue) → Bool
  | _, [] => true
  | sch, e :: rest =>
    (match List.lookup e.1 sch with
     | some c => satisfies c e.2
     | Option.none => false) && entriesOK sch rest

end

/-- Modelled from the spec: a schema enumerating required keys, optional keys
and their per-key constraints (closed: unknown keys are rejected). -/
structure Schema where
  required : List (String × Constraint)
  optionalKeys : List (String × Constraint)

/-- Modelled from the spec: `validate(logger, document, schema, context)` —
returns success (`1`) when the document conforms to the schema and otherwise
fails with a `PolicyValidationError` carrying the offending context label
(process-fatal by design, modelled as `Except.error`). -/
def validate (document : PolValue) (schema : Schema) (context : String) :
    Except String Nat :=
  if satisfies (Constraint.nested schema.required schema.optionalKeys) document
  then Except.ok 1
  else Except.error ("PolicyValidationError: " ++ context)

mutual

/-- Declarative conformance of a document fragment to a constraint, stated
inductively rather than by execution (used to give the validator theorem
content independent of the checker's recursion). -/
inductive Conforms : Constraint → PolValue → Prop where
  | anyVal (v : PolValue) : Conforms Constraint.anyVal v
  | oneOf {vs : List String} {s : String} (h : s ∈ vs) :
      Conforms (Constraint.oneOf vs) (PolValue.atom s)
  | nested {req opt : List (String × Constraint)}
      {entries : List (String × PolValue)}
      (hreq : ∀ kc ∈ req, ∃ e ∈ entries, e.1 = kc.1)
      (hent : ConformsEntries (req ++ opt) entries) :
      Conforms (Constraint.nested req opt) (PolValue.doc entries)

/-- Declarative counterpart of `entriesOK`: every entry's key resolves in the
schema key table and its value conforms to the resolved constraint. -/
inductive ConformsEntries :
    List (String × Constraint) → List (String × PolValue) → Prop where
  | nil (sch : List (String × Constraint)) : ConformsEntries sch []
  | cons {sch : List (String × Constraint)} {e : String × PolValue}
      {rest : List (String × PolValue)} (c : Constraint)
      (hl : List.lookup e.1 sch = some c) (hc : Conforms c e.2)
      (ht : ConformsEntries sch rest) : ConformsEntries sch (e :: rest)

end

/-! ## IP address space validation (`policy.py validate_ip_space`, modelled
from the spec) -/

/-- Parse a dotted-quad IPv4 literal into its 32-bit value. -/
def parseIPv4 (l : List Char) : Option Nat :=
  match splitOnChar '.' l with
  | [a, b, c, d] =>
    match parseDec a, parseDec b, parseDec c, parseDec d with
    | some va, some vb, some vc, some vd =>
      if va ≤ 255 && vb ≤ 255 && vc ≤ 255 && vd ≤ 255 then
        some (((va * 256 + vb) * 256 + vc) * 256 + vd)
      else Option.none
    | _, _, _, _ => Option.none
  | _ => Option.none

/-- Find the first `::` in an IPv6 literal, returning the pieces before and
after it. -/
def breakColonColon : List Char → Option (List Char × List Char)
  | [] => Option.none
  | ':' :: ':' :: rest => some ([], rest)
  | c :: rest => (breakColonColon rest).map (fun p => (c :: p.1, p.2))

/-- Parse one IPv6 group: one to four hexadecimal digits. -/
def parseHexGroup (l : List Char) : Option Nat :=
  if l.length ≤ 4 then parseHex l else Option.none

/-- Parse every group of a colon-separated piece. -/
def parseHexGroups : List (List Char) → Option (List Nat)
  | [] => some []
  | g :: gs =>
    match parseHexGroup g, parseHexGroups gs with
    | some v, some vs => some (v :: vs)
    | _, _ => Option.none

/-- Combine eight 16-bit groups into the 128-bit address value. -/
def v6val (gs : List Nat) : Nat := gs.foldl (fun acc g => acc * 65536 + g) 0

/-- Parse an IPv6 literal (colon-separated hex groups, with at most one `::`
compression standing for at least one zero group) into its 128-bit value. -/
def parseIPv6 (l : List Char) : Option Nat :=
  match breakColonColon l with
  | Option.none =>
    match parseHexGroups (splitOnChar ':' l) with
    | some gs => if gs.length = 8 then some (v6val gs) else Option.none
    | Option.none => Option.none
  | some (lft, rgt) =>
    let lgs? := if lft = [] then some [] else parseHexGroups (splitOnChar ':' lft)
    let rgs? := if rgt = [] then some [] else parseHexGroups (splitOnChar ':' rgt)
    match lgs?, rgs? with
    | some lgs, some rgs =>
      if lgs.length + rgs.length ≤ 7 then
        some (v6val (lgs ++ List.replicate (8 - lgs.length - rgs.length) 0 ++ rgs))
      else Option.none
    | _, _ => Option.none

/-- The address family of a parsed literal. -/
inductive IPFamily where
  | v4
  | v6
deriving DecidableEq

/-- Parse a single IP literal of either family, with its address value. -/
def parseIP (l : List Char) : Option (IPFamily × Nat) :=
  match parseIPv4 l with
  | some v => some (IPFamily.v4, v)
  | Option.none =>
    match parseIPv6 l with
    | some v => some (IPFamily.v6, v)
    | Option.none => Option.none

/-- Parse CIDR notation: an address literal, a slash and a prefix length
bounded by the family's address width. -/
def parseCIDR (l : List Char) : Option (IPFamily × Nat × Nat) :=
  match splitOnChar '/' l with
  | [a, p] =>
    match parseIP a, parseDec p with
    | some (fam, v), some n =>
      if n ≤ (match fam with | IPFamily.v4 => 32 | IPFamily.v6 => 128) then
        some (fam, v, n)
      else Option.none
    | _, _ => Option.none
  | _ => Option.none

/-- Modelled from the spec: is the value an acceptable IP space — a single
IPv4/IPv6 literal, CIDR, or a two-endpoint range of the same family with the
endpoints in address-value order? -/
def ipSpaceOK (l : List Char) : Bool :=
  match splitOnChar '-' l with
  | [a] => (parseIP a).isSome || (parseCIDR a).isSome
  | [a, b] =>
    match parseIP a, parseIP b with
    | some (fa, va), some (fb, vb) => fa = fb && va ≤ vb
    | _, _ => false
  | _ => false

/-- Modelled from the spec: `validate_ip_space(value)` — return the value
unchanged when it is an acceptable IP space, otherwise raise `Invalid`
(modelled as `Except.error`). -/
def validate_ip_space (s : String) : Except String String :=
  if ipSpaceOK s.data then Except.ok s
  else Except.error "Invalid IP address space"

/-! ## Ethertype validation (`policy.py validate_ethertype`, modelled from
the spec) -/

/-- Modelled from the spec: a policy ethertype is given either as a string or
as a numeric literal. -/
inductive EthInput where
  | str (s : String)
  | num (n : Nat)
deriving DecidableEq

/-- Modelled from the spec: the numeric value of an ethertype input — a
string prefixed `0x` is read as hexadecimal, any other string as decimal, a
numeric literal as itself; `none` models a parse failure. -/
def ethertypeVal : EthInput → Option Nat
  | EthInput.num n => some n
  | EthInput.str s =>
    match s.data with
    | '0' :: 'x' :: rest => parseHex rest
    | l => parseDec l

/-- Modelled from the spec: `validate_ethertype(value)` — accept the input
unchanged iff its numeric value lies in 0–0xFFFF, otherwise raise `Invalid`. -/
def validate_ethertype (v : EthInput) : Except String EthInput :=
  match ethertypeVal v with
  | some n => if n ≤ 0xFFFF then Except.ok v else Except.error "Invalid ethertype"
  | Option.none => Except.error "Invalid ethertype"

/-! ## Ports transformation (`policy.py transform_ports`, modelled from the
spec) -/

/-- Modelled from the spec: expand one comma-separated token of a ports
specification — a single integer yields itself, an inclusive range `lo-hi`
yields `lo, lo+1, ..., hi`; surrounding whitespace is tolerated. -/
def expandToken (t : List Char) : List Nat :=
  let t := stripSpaces t
  match splitOnChar '-' t with
  | [a] =>
    match parseDec a with
    | some n => [n]
    | Option.none => []
  | [a, b] =>
    match parseDec a, parseDec b with
    | some lo, some hi => List.range' lo (hi + 1 - lo)
    | _, _ => []
  | _ => []

/-- Modelled from the spec: `transform_ports(ports_spec)` — the ordered list
of every port covered by the comma-separated specification. -/
def transform_ports (s : String) : List Nat :=
  ((splitOnChar ',' s.data).map expandToken).flatten

/-! ## Topology resolver (`policy.py Locations`, modelled from the spec) -/

/-- Modelled from the spec: a named port set, with its membership already
resolved to the set of (dpid, port) pairs it covers. -/
structure PortSetDef where
  name : String
  members : List (Nat × Nat)
deriving DecidableEq

/-- Modelled from the spec: a location — a name plus an ordered list of
references to named port sets. -/
structure Location where
  name : String
  port_set_list : List String
deriving DecidableEq

/-- Modelled from the spec: the locations branch of the policy — an ordered
list of locations, the port set definitions they reference, and the optional
configured `default_match`. -/
structure LocationsCfg where
  locations_list : List Location
  port_sets : List PortSetDef
  default_match : Option String
deriving DecidableEq

/-- Does the named port set contain the (dpid, port) pair? -/
def portSetContains (ps : List PortSetDef) (n : String) (dpid port : Nat) :
    Bool :=
  match ps.find? (fun p => p.name = n) with
  | some p => p.members.contains (dpid, port)
  | Option.none => false

/-- Modelled from the spec: `Location.check(dpid, port)` — the location's
name when any referenced port set contains the pair, else the empty string. -/
def locationCheck (cfg : LocationsCfg) (loc : Location) (dpid port : Nat) :
    String :=
  if loc.port_set_list.any (fun n => portSetContains cfg.port_sets n dpid port)
  then loc.name else ""

/-- Walk the locations in document order, returning the first non-empty
check result, else the configured default, else `"unknown"`. -/
def getLocationFrom (cfg : LocationsCfg) (dpid port : Nat) :
    List Location → String
  | [] => cfg.default_match.getD "unknown"
  | loc :: rest =>
    let r := locationCheck cfg loc dpid port
    if r ≠ "" then r else getLocationFrom cfg dpid port rest

/-- Modelled from the spec: `Locations.get_location(dpid, port)`. -/
def get_location (cfg : LocationsCfg) (dpid port : Nat) : String :=
  getLocationFrom cfg dpid port cfg.locations_list

/-! ## Switch abstraction (`nmeta/switches.py`, embedded from the source)

The remaining definitions embed `switches.py` itself: the `Switches`
container with its `__getitem__` (lines 176–186) and the `FlowTables`
suppression logic (lines 329–698).  Logging and the MongoDB mirror are
side effects outside the per-call semantics and are not represented;
OpenFlow messages sent via `add_flow` are recorded in an explicit install
log so that "no flow entry installed" is expressible. -/

/-- A `Switch` instance as initialised in `Switch.__init__` (switches.py
lines 214–227); the Ryu `datapath` handle and the nested `FlowTables` are
external objects and are not part of the stored descriptive state. -/
structure Switch where
  switch_hash : String
  dpid : Nat
  ip_address : String
  cxn_status : String
  cxn_ver : String
  mfr_desc : String
  hw_desc : String
  sw_desc : String
  serial_num : String
  dp_desc : String
deriving DecidableEq

/-- The `Switches` container: instances of `Switch` keyed by DPID
(switches.py line 109, `self.switches = {}`). -/
structure Switches where
  switches : List (Nat × Switch)
deriving DecidableEq

/-- The value returned by `Switches.__getitem__`: either a stored `Switch`
instance or the Python integer `0`. -/
inductive GetItemResult where
  | switch (s : Switch)
  | zero
deriving DecidableEq

/-- Embeds `Switches.__getitem__` (switches.py lines 176–186): return the
switch stored under the dpid key, or `0` if it does not exist. -/
def Switches.getitem (sws : Switches) (key : Nat) : GetItemResult :=
  match sws.switches.lookup key with
  | some s => GetItemResult.switch s
  | Option.none => GetItemResult.zero

/-- A value stored in an OpenFlow match dictionary: the IPv4 addresses are
converted to integers by `_ipv4_t2i`, IPv6 addresses stay text. -/
inductive MatchVal where
  | nat (n : Nat)
  | str (s : String)
deriving DecidableEq

/-- An OpenFlow action produced by `FlowTables.actions` (lines 586–597). -/
inductive OFAction where
  | setQueue (q : Nat)
  | output (port : Nat)
deriving DecidableEq

/-- One flow entry as handed to `add_flow` (lines 560–584). -/
structure InstalledFlow where
  matchd : List (String × MatchVal)
  acts : List OFAction
  priority : Nat
  idle_timeout : Nat
  hard_timeout : Nat
  cookie : Nat
deriving DecidableEq

/-- The mutable state of a `FlowTables` instance relevant to flow
suppression (lines 334–353), plus the log of entries installed via
`add_flow`. -/
structure FlowTablesState where
  offset : Nat
  suppress_idle_timeout : Nat
  suppress_hard_timeout : Nat
  suppress_priority : Nat
  flow_mod_cookie_forward : Nat
  flow_mod_cookie_reverse : Nat
  installed : List InstalledFlow
deriving DecidableEq

/-- Embeds `_ipv4_t2i` (lines 702–710): dotted-decimal text to integer; a
malformed address raises (`struct.error`), modelled as `Except.error`. -/
def ipv4_t2i (s : String) : Except String Nat :=
  match parseIPv4 s.data with
  | some n => Except.ok n
  | Option.none => Except.error "struct.error"

/-- Embeds `FlowTables.match_ipv4_tcp` (lines 599–617).  Note the Python
truthiness test `if tcp_src:`: a zero source port omits the `tcp_src` key. -/
def match_ipv4_tcp (ip_src ip_dst : String) (tcp_src tcp_dst : Nat) :
    Except String (List (String × MatchVal)) := do
  let s ← ipv4_t2i ip_src
  let d ← ipv4_t2i ip_dst
  if tcp_src ≠ 0 then
    Except.ok [("eth_type", MatchVal.nat 0x0800), ("ipv4_src", MatchVal.nat s),
      ("ipv4_dst", MatchVal.nat d), ("ip_proto", MatchVal.nat 6),
      ("tcp_src", MatchVal.nat tcp_src), ("tcp_dst", MatchVal.nat tcp_dst)]
  else
    Except.ok [("eth_type", MatchVal.nat 0x0800), ("ipv4_src", MatchVal.nat s),
      ("ipv4_dst", MatchVal.nat d), ("ip_proto", MatchVal.nat 6),
      ("tcp_dst", MatchVal.nat tcp_dst)]

/-- Embeds `FlowTables.match_ipv6_tcp` (lines 639–657). -/
def match_ipv6_tcp (ip_src ip_dst : String) (tcp_src tcp_dst : Nat) :
    List (String × MatchVal) :=
  if tcp_src ≠ 0 then
    [("eth_type", MatchVal.nat 0x86DD), ("ipv6_src", MatchVal.str ip_src),
     ("ipv6_dst", MatchVal.str ip_dst), ("ip_proto", MatchVal.nat 6),
     ("tcp_src", MatchVal.nat tcp_src), ("tcp_dst", MatchVal.nat tcp_dst)]
  else
    [("eth_type", MatchVal.nat 0x86DD), ("ipv6_src", MatchVal.str ip_src),
     ("ipv6_dst", MatchVal.str ip_dst), ("ip_proto", MatchVal.nat 6),
     ("tcp_dst", MatchVal.nat tcp_dst)]

/-- Embeds `FlowTables.match_ipv4` (lines 679–688). -/
def match_ipv4 (ip_src ip_dst : String) (proto : Nat) :
    Except String (List (String × MatchVal)) := do
  let s ← ipv4_t2i ip_src
  let d ← ipv4_t2i ip_dst
  Except.ok [("eth_type", MatchVal.nat 0x0800), ("ipv4_src", MatchVal.nat s),
    ("ipv4_dst", MatchVal.nat d), ("ip_proto", MatchVal.nat proto)]

/-- Embeds `FlowTables.match_ipv6` (lines 690–698). -/
def match_ipv6 (ip_src ip_dst : String) : List (String × MatchVal) :=
  [("eth_type", MatchVal.nat 0x86DD), ("ipv6_src", MatchVal.str ip_src),
   ("ipv6_dst", MatchVal.str ip_dst)]

/-- Embeds `FlowTables.actions` (lines 586–597). -/
def mkActions (out_port out_queue : Nat) (no_queue : Bool := false) :
    List OFAction :=
  if no_queue then [OFAction.output out_port]
  else [OFAction.setQueue out_queue, OFAction.output out_port]

/-- Embeds `FlowTables.add_flow` (lines 560–584): build the flow-mod and
send it to the switch; here the entry is appended to the install log. -/
def add_flow (st : FlowTablesState) (matchd : List (String × MatchVal))
    (acts : List OFAction) (priority idle_timeout hard_timeout cookie : Nat) :
    FlowTablesState :=
  { st with installed := st.installed ++
      [⟨matchd, acts, priority, idle_timeout, hard_timeout, cookie⟩] }

/-- Python dictionary assignment `d[k] = v`: replace the value stored under
an existing key in place, else append the binding. -/
def setKey (d : List (String × MatchVal)) (k : String) (v : MatchVal) :
    List (String × MatchVal) :=
  if d.any (fun e => e.1 = k) then
    d.map (fun e => if e.1 = k then (k, v) else e)
  else d ++ [(k, v)]

/-- The forward/reverse match slots of the suppression-result dictionary:
initialised to the Python empty string, later overwritten with a match
dictionary. -/
inductive MatchField where
  | empty
  | dict (d : List (String × MatchVal))
deriving DecidableEq

/-- The result dictionary built by `suppress_flow`/`drop_flow` (lines
379–381). -/
structure SuppressResult where
  match_type : String
  forward_cookie : Nat
  forward_match : MatchField
  reverse_cookie : Nat
  reverse_match : MatchField
  client_ip : String
deriving DecidableEq

/-- The initial `ignore` result dictionary (lines 379–381):
`{'match_type': 'ignore', 'forward_cookie': 0, 'forward_match': '',
'reverse_cookie': 0, 'reverse_match': '', 'client_ip': ''}`. -/
def ignoreResult : SuppressResult :=
  { match_type := "ignore", forward_cookie := 0,
    forward_match := MatchField.empty, reverse_cookie := 0,
    reverse_match := MatchField.empty, client_ip := "" }

/-- The protocol headers extracted from the packet-in payload (lines
370–374); `none` models the corresponding `pkt.get_protocol` returning
`None`. -/
structure TCPHeader where
  src_port : Nat
  dst_port : Nat
deriving DecidableEq

structure UDPHeader where
  src_port : Nat
  dst_port : Nat
deriving DecidableEq

structure IPv4Header where
  src : String
  dst : String
  proto : Nat
deriving DecidableEq

structure IPv6Header where
  src : String
  dst : String
deriving DecidableEq

structure ParsedPacket where
  ip4 : Option IPv4Header
  ip6 : Option IPv6Header
  tcp : Option TCPHeader
  udp : Option UDPHeader
deriving DecidableEq

/-- Attach the state at the point of a raised exception to an error, so that
side effects performed before the raise are not lost. -/
def withSt (st : FlowTablesState) :
    Except String α → Except (String × FlowTablesState) α
  | Except.ok a => Except.ok a
  | Except.error m => Except.error (m, st)

/-- Embeds `FlowTables.suppress_flow` (lines 355–478) line by line.  TCP
flows to or from port 53 (DNS), UDP flows touching port 53 or 67
(DNS/DHCP), and non-IP flows return the untouched `ignore` result without
installing anything; otherwise the matches are built, one entry (or a
forward/reverse pair for TCP) is installed, the result dictionary is filled
in and the flow-mod cookie counters advance.  An error models a raised
Python exception, carrying the state at the raise point (the source reads
`pkt_ip4.src` for `client_ip` even on the IPv6 paths, where `pkt_ip4` is
`None` — an `AttributeError`). -/
def suppress_flow (st : FlowTablesState) (pkt : ParsedPacket)
    (in_port out_port out_queue : Nat) :
    Except (String × FlowTablesState) (SuppressResult × FlowTablesState) :=
  let idle_timeout := st.suppress_idle_timeout
  let hard_timeout := st.suppress_hard_timeout
  let priority := st.suppress_priority
  let result := ignoreResult
  match pkt.tcp with
  | some t =>
    if t.src_port = 53 ∨ t.dst_port = 53 then Except.ok (result, st)
    else
      match pkt.ip4, pkt.ip6 with
      | some ip4, _ => do
        let forward_match ← withSt st
          (match_ipv4_tcp ip4.src ip4.dst t.src_port t.dst_port)
        let reverse_match ← withSt st
          (match_ipv4_tcp ip4.dst ip4.src t.dst_port t.src_port)
        let forward_actions := mkActions out_port out_queue
        let reverse_actions := mkActions in_port out_queue
        let forward_cookie := st.flow_mod_cookie_forward
        let reverse_cookie := st.flow_mod_cookie_reverse
        let st := add_flow st forward_match forward_actions priority
          idle_timeout hard_timeout forward_cookie
        let st := add_flow st reverse_match reverse_actions priority
          idle_timeout hard_timeout reverse_cookie
        let forward_match := setKey (setKey forward_match "ipv4_src"
          (MatchVal.str ip4.src)) "ipv4_dst" (MatchVal.str ip4.dst)
        let reverse_match := setKey (setKey reverse_match "ipv4_src"
          (MatchVal.str ip4.dst)) "ipv4_dst" (MatchVal.str ip4.src)
        let result := { result with
          match_type := "dual"
          forward_cookie := forward_cookie
          forward_match := MatchField.dict forward_match
          reverse_cookie := reverse_cookie
          reverse_match := MatchField.dict reverse_match
          client_ip := ip4.src }
        let st := { st with
          flow_mod_cookie_forward :=
            if st.flow_mod_cookie_forward < st.offset then
              st.flow_mod_cookie_forward + 1
            else 1
          flow_mod_cookie_reverse := st.flow_mod_cookie_reverse + 1 }
        Except.ok (result, st)
      | Option.none, some ip6 => do
        let forward_match := match_ipv6_tcp ip6.src ip6.dst t.src_port
          t.dst_port
        let reverse_match := match_ipv6_tcp ip6.dst ip6.src t.dst_port
          t.src_port
        let forward_actions := mkActions out_port out_queue
        let reverse_actions := mkActions in_port out_queue
        let forward_cookie := st.flow_mod_cookie_forward
        let reverse_cookie := st.flow_mod_cookie_reverse
        let st := add_flow st forward_match forward_actions priority
          idle_timeout hard_timeout forward_cookie
        let st := add_flow st reverse_match reverse_actions priority
          idle_timeout hard_timeout reverse_cookie
        let _ := { result with
          match_type := "dual"
          forward_cookie := forward_cookie
          forward_match := MatchField.dict forward_match
          reverse_cookie := reverse_cookie
          reverse_match := MatchField.dict reverse_match }
        Except.error ("AttributeError", st)
      | Option.none, Option.none => Except.ok (result, st)
  | Option.none =>
    if (match pkt.udp with
        | some u => u.src_port = 53 || u.dst_port = 53 ||
            u.src_port = 67 || u.dst_port = 67
        | Option.none => false) then Except.ok (result, st)
    else
      match pkt.ip4, pkt.ip6 with
      | some ip4, _ => do
        let m ← withSt st (match_ipv4 ip4.src ip4.dst ip4.proto)
        let acts := mkActions out_port out_queue
        let cookie := st.flow_mod_cookie_forward
        let st := add_flow st m acts priority idle_timeout hard_timeout cookie
        let m := setKey (setKey m "ipv4_src" (MatchVal.str ip4.src))
          "ipv4_dst" (MatchVal.str ip4.dst)
        let result := { result with
          match_type := "single"
          forward_cookie := cookie
          forward_match := MatchField.dict m
          client_ip := ip4.src }
        let st := { st with
          flow_mod_cookie_forward := st.flow_mod_cookie_forward + 1 }
        Except.ok (result, st)
      | Option.none, some ip6 => do
        let m := match_ipv6 ip6.src ip6.dst
        let acts := mkActions out_port out_queue
        let cookie := st.flow_mod_cookie_forward
        let st := add_flow st m acts priority idle_timeout hard_timeout cookie
        let _ := { result with
          match_type := "single"
          forward_cookie := cookie
          forward_match := MatchField.dict m }
        Except.error ("AttributeError", st)
      | Option.none, Option.none => Except.ok (result, st)

/-! ## Concrete sample data, mirroring the repository's test fixtures -/

/-- Test Flow 1 Packet 1 of `test_policy.py`: a client TCP SYN
10.1.0.1:43297 → 10.1.0.2:80 with the MAC endpoints used by the MAC
classifier conditions. -/
def httpFlow : FlowState :=
  { pkt := { eth_src := "08:00:27:2a:d6:dd", eth_dst := "08:00:27:c8:db:91",
             ip_src := "10.1.0.1", ip_dst := "10.1.0.2",
             tcp_src := some 43297, tcp_dst := some 80 }
    custom := fun _ => false }

/-- The same packet with the external statistical accumulation currently
reporting a best-effort `true` for every custom classifier. -/
def statFlow : FlowState := { httpFlow with custom := fun _ => true }

/-- The matching rule of `main_policy_regression_static_3.yaml`: any HTTP
port with the constrained-bandwidth actions. -/
def constrainedRule : TCRule :=
  { match_type := MatchType.any
    conditions_list := [⟨MatchType.any,
      [Classifier.tcp_src 80, Classifier.tcp_dst 80]⟩]
    actions := [("qos_treatment", "constrained_bw"),
                ("set_desc", "Constrained Bandwidth Traffic")] }

/-- A rule matching only OpenFlow control-plane traffic (TCP port 6633),
which the HTTP test flow does not match. -/
def opfRule : TCRule :=
  { match_type := MatchType.any
    conditions_list := [⟨MatchType.any,
      [Classifier.tcp_src 6633, Classifier.tcp_dst 6633]⟩]
    actions := [("qos_treatment", "high_priority"),
                ("set_desc", "OpenFlow Traffic")] }

/-- A rule whose single condition holds one custom statistical classifier
(as in `main_policy_regression_statistical.yaml`). -/
def statRule : TCRule :=
  { match_type := MatchType.any
    conditions_list := [⟨MatchType.any,
      [Classifier.custom "statistical_qos_bandwidth_1"]⟩]
    actions := [("qos_treatment", "constrained_bw"),
                ("set_desc", "Constrained Bandwidth Traffic")] }

/-- The LLDP identity record harvested in `test_tc_identity.py`: system name
`pc1.example.com` seen from MAC `08:00:27:2a:d6:dd`. -/
def pc1Record : IdentityRecord :=
  { harvest_type := "LLDP", host_name := "pc1.example.com",
    service_name := "", service_alias := "",
    mac_address := "08:00:27:2a:d6:dd", ip_address := "" }

/-- The port sets of `main_policy_regression_static.yaml` as exercised by
`test_location_check` and `test_locations_get_location`. -/
def testPortSets : List PortSetDef :=
  [{ name := "port_set_location_internal",
     members := [(1, 1), (1, 2), (255, 3), (255, 5), (1, 66)] },
   { name := "port_set_location_external",
     members := [(1, 6), (255, 4)] }]

/-- The locations branch of the test policy, with `default_match`
configured as `unknown`. -/
def testLocCfg : LocationsCfg :=
  { locations_list := [⟨"internal", ["port_set_location_internal"]⟩,
                       ⟨"external", ["port_set_location_external"]⟩]
    port_sets := testPortSets
    default_match := some "unknown" }

/-- The same locations branch with no configured default. -/
def testLocCfgNoDefault : LocationsCfg :=
  { testLocCfg with default_match := Option.none }

/-- A miniature of the main-policy top-level schema: four required branches,
an optional comment, and a nested closed schema for the locations branch
with an enumerated `default_match` style constraint on the drop action. -/
def sampleSchema : Schema :=
  { required := [("tc_rules", Constraint.anyVal),
      ("qos_treatment", Constraint.anyVal),
      ("port_sets", Constraint.anyVal),
      ("locations", Constraint.nested
        [("locations_list", Constraint.anyVal),
         ("default_match", Constraint.anyVal)] [])]
    optionalKeys := [("comment", Constraint.anyVal),
      ("drop", Constraint.oneOf ["at_controller", "at_controller_and_switch"])] }

/-- A document conforming to `sampleSchema` (the optional `comment` key is
absent). -/
def goodPolicyDoc : PolValue :=
  PolValue.doc [("tc_rules", PolValue.atom "ruleset"),
    ("qos_treatment", PolValue.atom "queues"),
    ("port_sets", PolValue.atom "sets"),
    ("locations", PolValue.doc [("locations_list", PolValue.atom "locs"),
      ("default_match", PolValue.atom "unknown")])]

/-- `goodPolicyDoc` with the required `tc_rules` branch knocked out. -/
def missingKeyDoc : PolValue :=
  PolValue.doc [("qos_treatment", PolValue.atom "queues"),
    ("port_sets", PolValue.atom "sets"),
    ("locations", PolValue.doc [("locations_list", PolValue.atom "locs"),
      ("default_match", PolValue.atom "unknown")])]

/-- `goodPolicyDoc` with an invalid key added at the nested locations
level. -/
def unknownNestedKeyDoc : PolValue :=
  PolValue.doc [("tc_rules", PolValue.atom "ruleset"),
    ("qos_treatment", PolValue.atom "queues"),
    ("port_sets", PolValue.atom "sets"),
    ("locations", PolValue.doc [("locations_list", PolValue.atom "locs"),
      ("default_match", PolValue.atom "unknown"),
      ("foo", PolValue.atom "1")])]

/-- `goodPolicyDoc` with the `drop` action present but set to a value
outside its enumerated constraint. -/
def badDropDoc : PolValue :=
  PolValue.doc [("tc_rules", PolValue.atom "ruleset"),
    ("qos_treatment", PolValue.atom "queues"),
    ("port_sets", PolValue.atom "sets"),
    ("locations", PolValue.doc [("locations_list", PolValue.atom "locs"),
      ("default_match", PolValue.atom "unknown")]),
    ("drop", PolValue.atom "controller")]

/-- A `FlowTables` state as configured by the nmeta defaults: the reverse
cookie offset is `2^32` and both cookie counters are at their initial
values with nothing installed. -/
def sampleFT : FlowTablesState :=
  { offset := 4294967296, suppress_idle_timeout := 5,
    suppress_hard_timeout := 0, suppress_priority := 1,
    flow_mod_cookie_forward := 1, flow_mod_cookie_reverse := 4294967296,
    installed := [] }

/-- A TCP DNS packet: 10.1.0.1:40001 → 10.1.0.2:53. -/
def tcpDnsPkt : ParsedPacket :=
  { ip4 := some ⟨"10.1.0.1", "10.1.0.2", 6⟩, ip6 := Option.none,
    tcp := some ⟨40001, 53⟩, udp := Option.none }

/-- A single stored switch used to exercise `Switches.__getitem__`. -/
def sampleSwitch : Switch :=
  { switch_hash := "", dpid := 1, ip_address := "10.0.0.5",
    cxn_status := "", cxn_ver := "", mfr_desc := "Nicira, Inc.",
    hw_desc := "Open vSwitch", sw_desc := "2.3.90", serial_num := "None",
    dp_desc := "None" }

/-- A `Switches` container holding `sampleSwitch` under dpid 1. -/
def sampleSwitches : Switches := { switches := [(1, sampleSwitch)] }

/-! ## Helper lemmas -/

/-- Splitting a list that does not contain the separator yields the list
itself as the only piece. -/
theorem splitOnChar_eq_single {sep : Char} {l : List Char} (h : sep ∉ l) :
    splitOnChar sep l = [l] := by
  induction l with
  | nil => rfl
  | cons c cs ih =>
    simp only [List.mem_cons, not_or] at h
    simp [splitOnChar, ih h.2, Ne.symm h.1]

/-- Splitting `a ++ sep :: b` where neither piece contains the separator
yields exactly the two pieces. -/
theorem splitOnChar_eq_pair {sep : Char} {a b : List Char}
    (ha : sep ∉ a) (hb : sep ∉ b) :
    splitOnChar sep (a ++ sep :: b) = [a, b] := by
  induction a with
  | nil => simp [splitOnChar, splitOnChar_eq_single hb]
  | cons c cs ih =>
    simp only [List.mem_cons, not_or] at ha
    simp [splitOnChar, ih ha.2, Ne.symm ha.1]

/-- Dropping leading spaces from a list containing none is the identity. -/
theorem dropWhile_space_eq_self {l : List Char} (h : ' ' ∉ l) :
    l.dropWhile (· = ' ') = l := by
  cases l with
  | nil => rfl
  | cons c cs =>
    have hc : ¬(c = ' ') := fun hc => h (by simp [hc])
    simp [List.dropWhile_cons, hc]

/-- Stripping spaces from a list containing none is the identity. -/
theorem stripSpaces_eq_self {l : List Char} (h : ' ' ∉ l) :
    stripSpaces l = l := by
  unfold stripSpaces
  rw [dropWhile_space_eq_self h,
    dropWhile_space_eq_self (by simpa using h), List.reverse_reverse]

/-- On a key list without duplicates, `List.lookup` finds exactly the stored
pair. -/
theorem lookup_eq_some_of_mem {l : List (Nat × Switch)} {k : Nat} {s : Switch}
    (hnd : (l.map Prod.fst).Nodup) (hm : (k, s) ∈ l) :
    l.lookup k = some s := by
  induction l with
  | nil => cases hm
  | cons e rest ih =>
    obtain ⟨a, b⟩ := e
    simp only [List.map_cons, List.nodup_cons] at hnd
    rcases List.mem_cons.mp hm with h | h
    · cases h
      simp [List.lookup]
    · have hne : (k == a) = false := by
        refine beq_eq_false_iff_ne.mpr ?_
        intro hk
        exact hnd.1 (hk ▸ List.mem_map.mpr ⟨(k, s), h, rfl⟩)
      simpa [List.lookup, hne] using ih hnd.2 h

/-- `List.lookup` misses every absent key. -/
theorem lookup_eq_none_of_not_mem {l : List (Nat × Switch)} {k : Nat}
    (h : k ∉ l.map Prod.fst) : l.lookup k = Option.none := by
  induction l with
  | nil => rfl
  | cons e rest ih =>
    obtain ⟨a, b⟩ := e
    simp only [List.map_cons, List.mem_cons, not_or] at h
    have hne : (k == a) = false := beq_eq_false_iff_ne.mpr h.1
    simpa [List.lookup, hne] using ih h.2

/-! ## Claim C9 -/

/-- C9: for every key, `Switches.__getitem__(key)` returns the stored
`Switch` instance when the key is a dpid present in the switches dictionary
(whose keys are unique), and the Python integer `0` — rather than raising
`KeyError` — when it is not. -/
theorem getitem_spec (sws : Switches) (key : Nat)
    (hnd : (sws.switches.map Prod.fst).Nodup) :
    (∀ s : Switch, (key, s) ∈ sws.switches →
      sws.getitem key = GetItemResult.switch s) ∧
    (key ∉ sws.switches.map Prod.fst →
      sws.getitem key = GetItemResult.zero) := by
  constructor
  · intro s hm
    unfold Switches.getitem
    rw [lookup_eq_some_of_mem hnd hm]
  · intro hk
    unfold Switches.getitem
    rw [lookup_eq_none_of_not_mem hk]

/-- C9 witness: on the concrete container `sampleSwitches`, dpid 1 resolves
to the stored instance and dpid 2 to the integer 0. -/
theorem getitem_spec_witness :
    sampleSwitches.getitem 1 = GetItemResult.switch sampleSwitch ∧
    sampleSwitches.getitem 2 = GetItemResult.zero :=
  ⟨(getitem_spec sampleSwitches 1 (by decide)).1 sampleSwitch (by decide),
   (getitem_spec sampleSwitches 2 (by decide)).2 (by decide)⟩

/-! ## Claim C10 -/

/-- C10: for every TCP packet whose source or destination port is 53 (DNS),
`FlowTables.suppress_flow` returns the untouched `ignore` result dictionary
and leaves the state unchanged — no flow entry is installed (`add_flow` never
runs) and both flow-mod cookie counters keep their values. -/
theorem suppress_flow_tcp_dns (st : FlowTablesState) (pkt : ParsedPacket)
    (in_port out_port out_queue : Nat) (t : TCPHeader)
    (htcp : pkt.tcp = some t) (hdns : t.src_port = 53 ∨ t.dst_port = 53) :
    suppress_flow st pkt in_port out_port out_queue =
      Except.ok (ignoreResult, st) := by
  unfold suppress_flow
  rw [htcp]
  simp [hdns]

/-- C10 witness: a concrete TCP packet to port 53 against the default
`FlowTables` state. -/
theorem suppress_flow_tcp_dns_witness :
    suppress_flow sampleFT tcpDnsPkt 1 2 0 = Except.ok (ignoreResult, sampleFT) :=
  suppress_flow_tcp_dns sampleFT tcpDnsPkt 1 2 0 ⟨40001, 53⟩ rfl (Or.inr rfl)

/-! ## Claim C2 -/

/-- C2: for every `TCCondition` over its `classifiers_list`, and likewise for
every `TCRule` over its `conditions_list`, the check result's match is the
logical AND of the child booleans for `match_type = all`, the logical OR for
`any`, and true iff zero children match for `none`. -/
theorem match_type_semantics (L : List Classifier) (CL : List TCCondition)
    (acts : List (String × String)) (f : FlowState)
    (ids : List IdentityRecord) :
    ((check_tc_condition ⟨MatchType.all, L⟩ f ids).matched = true ↔
      ∀ cl ∈ L, (checkClassifier f ids cl).1 = true) ∧
    ((check_tc_condition ⟨MatchType.any, L⟩ f ids).matched = true ↔
      ∃ cl ∈ L, (checkClassifier f ids cl).1 = true) ∧
    ((check_tc_condition ⟨MatchType.none, L⟩ f ids).matched = true ↔
      ¬ ∃ cl ∈ L, (checkClassifier f ids cl).1 = true) ∧
    ((check_tc_rule ⟨MatchType.all, CL, acts⟩ f ids).matched = true ↔
      ∀ c ∈ CL, (check_tc_condition c f ids).matched = true) ∧
    ((check_tc_rule ⟨MatchType.any, CL, acts⟩ f ids).matched = true ↔
      ∃ c ∈ CL, (check_tc_condition c f ids).matched = true) ∧
    ((check_tc_rule ⟨MatchType.none, CL, acts⟩ f ids).matched = true ↔
      ¬ ∃ c ∈ CL, (check_tc_condition c f ids).matched = true) := by
  refine ⟨?_, ?_, ?_, ?_, ?_, ?_⟩ <;>
    simp [check_tc_condition, check_tc_rule, combineMatches, List.all_map,
      List.any_map, Function.comp, List.all_eq_true, List.any_eq_true]

/-- C2 witness: the `none` combinator positively selects the HTTP test flow,
which matches no OpenFlow control-plane classifier, and the `all` combinator
rejects it on a mixed classifier list. -/
theorem match_type_semantics_witness :
    (check_tc_condition ⟨MatchType.none,
      [Classifier.tcp_src 6633, Classifier.tcp_dst 6633]⟩ httpFlow []).matched
      = true ∧
    (check_tc_condition ⟨MatchType.all,
      [Classifier.tcp_src 80, Classifier.tcp_dst 80]⟩ httpFlow []).matched
      = false := by
  constructor
  · exact (match_type_semantics [Classifier.tcp_src 6633,
      Classifier.tcp_dst 6633] [] [] httpFlow []).2.2.1.mpr (by decide)
  · have h := (match_type_semantics [Classifier.tcp_src 80,
      Classifier.tcp_dst 80] [] [] httpFlow []).1
    rw [Bool.eq_false_iff]
    intro hc
    have := h.mp hc (Classifier.tcp_src 80) (by decide)
    exact absurd this (by decide)

/-! ## Claim C1 -/

/-- C1 (amended): `Policy.check_policy` evaluates the configured rules in
document order and short-circuits on the first rule whose result has
`match = true`; when that result's `continue_to_inspect` is false it writes
`classified = 1`, that rule's classification tag, and a copy of its actions
(when `continue_to_inspect` is true it writes `classified = 0` with the tag
and actions instead); if every rule is exhausted with no match it writes
`classified = 1` with an empty classification tag and empty actions. -/
theorem check_policy_first_match (rules : List TCRule) (f : FlowState)
    (ids : List IdentityRecord) :
    ((∀ r ∈ rules, (check_tc_rule r f ids).matched = false) →
      check_policy rules f ids =
        { classified := 1, classification_tag := "", actions := [] }) ∧
    (∀ (pre : List TCRule) (r : TCRule) (post : List TCRule),
      rules = pre ++ r :: post →
      (∀ r' ∈ pre, (check_tc_rule r' f ids).matched = false) →
      (check_tc_rule r f ids).matched = true →
      check_policy rules f ids =
        { classified :=
            if (check_tc_rule r f ids).continue_to_inspect then 0 else 1
          classification_tag := (check_tc_rule r f ids).classification_tag
          actions := (check_tc_rule r f ids).actions }) := by
  constructor
  · intro h
    induction rules with
    | nil => rfl
    | cons r rest ih =>
      have hr := h r (List.mem_cons_self r rest)
      simp only [check_policy, hr, Bool.false_eq_true, if_false]
      exact ih fun r' hr' => h r' (List.mem_cons_of_mem r hr')
  · intro pre r post heq hpre hmatch
    subst heq
    induction pre with
    | nil => simp [check_policy, hmatch]
    | cons p pre' ih =>
      have hp := hpre p (List.mem_cons_self p pre')
      simp only [List.cons_append, check_policy, hp, Bool.false_eq_true,
        if_false]
      exact ih fun r' hr' => hpre r' (List.mem_cons_of_mem p hr')

/-- C1 counterexample: the claim as stated says the first matching rule
always yields `classified = 1`, but per the specification a matching rule
whose result carries `continue_to_inspect` (a custom statistical classifier)
leaves the flow with `classified = 0`. -/
theorem check_policy_continue_cex :
    (check_tc_rule statRule statFlow []).matched = true ∧
    (check_policy [statRule] statFlow []).classified ≠ 1 := by
  decide

/-- C1 witness: on the HTTP test flow, a policy whose only rule matches
OpenFlow traffic classifies as unclassified, and with the constrained
bandwidth rule appended the second rule's verdict is written. -/
theorem check_policy_first_match_witness :
    check_policy [opfRule] httpFlow [] =
      { classified := 1, classification_tag := "", actions := [] } ∧
    check_policy [opfRule, constrainedRule] httpFlow [] =
      { classified := 1
        classification_tag := "Constrained Bandwidth Traffic"
        actions := [("qos_treatment", "constrained_bw"),
                    ("set_desc", "Constrained Bandwidth Traffic")] } := by
  constructor
  · exact (check_policy_first_match [opfRule] httpFlow []).1 (by decide)
  · have h := (check_policy_first_match [opfRule, constrainedRule] httpFlow
      []).2 [opfRule] constrainedRule [] rfl (by decide) (by decide)
    exact h.trans (by decide)

/-! ## Claim C5 -/

/-- Walking a location list where no location's referenced port sets contain
the pair falls through to the default. -/
theorem getLocationFrom_no_match {cfg : LocationsCfg} {dpid port : Nat}
    {ls : List Location}
    (h : ∀ l ∈ ls, ¬ ∃ n ∈ l.port_set_list,
      portSetContains cfg.port_sets n dpid port = true) :
    getLocationFrom cfg dpid port ls = cfg.default_match.getD "unknown" := by
  induction ls with
  | nil => rfl
  | cons l rest ih =>
    have hl := h l (List.mem_cons_self l rest)
    have hany : (l.port_set_list.any
        (fun n => portSetContains cfg.port_sets n dpid port)) = false := by
      rw [List.any_eq_false]
      intro n hn hc
      exact hl ⟨n, hn, hc⟩
    simp only [getLocationFrom, locationCheck, hany, Bool.false_eq_true,
      if_false, ne_eq, not_true_eq_false]
    exact ih fun l' hl' => h l' (List.mem_cons_of_mem l hl')

/-- C5: for every `(dpid, port)` pair, `Locations.get_location` evaluates the
configured locations in document order and returns the name of the first
location one of whose referenced port sets contains the pair; if no location
matches it returns the configured `default_match`, and the literal string
`"unknown"` when no default is configured.  (Locations are assumed to carry a
non-empty name, as the Python walk skips a falsy check result.) -/
theorem get_location_spec (cfg : LocationsCfg) (dpid port : Nat)
    (hnames : ∀ l ∈ cfg.locations_list, l.name ≠ "") :
    (∀ (pre : List Location) (loc : Location) (post : List Location),
      cfg.locations_list = pre ++ loc :: post →
      (∀ l ∈ pre, ¬ ∃ n ∈ l.port_set_list,
        portSetContains cfg.port_sets n dpid port = true) →
      (∃ n ∈ loc.port_set_list,
        portSetContains cfg.port_sets n dpid port = true) →
      get_location cfg dpid port = loc.name) ∧
    ((∀ l ∈ cfg.locations_list, ¬ ∃ n ∈ l.port_set_list,
        portSetContains cfg.port_sets n dpid port = true) →
      (∀ d, cfg.default_match = some d → get_location cfg dpid port = d) ∧
      (cfg.default_match = Option.none →
        get_location cfg dpid port = "unknown")) := by
  constructor
  · intro pre loc post heq hpre hloc
    have hname : loc.name ≠ "" :=
      hnames loc (heq ▸ List.mem_append_right pre (List.mem_cons_self loc post))
    have hany : (loc.port_set_list.any
        (fun n => portSetContains cfg.port_sets n dpid port)) = true := by
      rw [List.any_eq_true]
      obtain ⟨n, hn, hc⟩ := hloc
      exact ⟨n, hn, hc⟩
    unfold get_location
    rw [heq]
    clear heq
    induction pre with
    | nil =>
      simp only [List.nil_append, getLocationFrom, locationCheck, hany,
        if_true, ne_eq, hname, not_false_eq_true, if_pos]
    | cons p pre' ih =>
      have hp := hpre p (List.mem_cons_self p pre')
      have hpany : (p.port_set_list.any
          (fun n => portSetContains cfg.port_sets n dpid port)) = false := by
        rw [List.any_eq_false]
        intro n hn hc
        exact hp ⟨n, hn, hc⟩
      simp only [List.cons_append, getLocationFrom, locationCheck, hpany,
        Bool.false_eq_true, if_false, ne_eq, not_true_eq_false]
      exact ih fun l' hl' => hpre l' (List.mem_cons_of_mem p hl')
  · intro h
    have hbase := getLocationFrom_no_match h
    constructor
    · intro d hd
      unfold get_location
      rw [hbase, hd]
      rfl
    · intro hd
      unfold get_location
      rw [hbase, hd]
      rfl

/-- C5 witness: the test policy's locations — (1,1) is internal, (1,6)
external, (1,7) unmatched falls back to the configured default `"unknown"`,
and without a configured default the literal `"unknown"` is returned. -/
theorem get_location_spec_witness :
    get_location testLocCfg 1 1 = "internal" ∧
    get_location testLocCfg 1 6 = "external" ∧
    get_location testLocCfg 1 7 = "unknown" ∧
    get_location testLocCfgNoDefault 1 7 = "unknown" := by
  refine ⟨?_, ?_, ?_, ?_⟩
  · exact (get_location_spec testLocCfg 1 1 (by decide)).1 []
      ⟨"internal", ["port_set_location_internal"]⟩
      [⟨"external", ["port_set_location_external"]⟩] rfl (by simp) (by decide)
  · exact (get_location_spec testLocCfg 1 6 (by decide)).1
      [⟨"internal", ["port_set_location_internal"]⟩]
      ⟨"external", ["port_set_location_external"]⟩ [] rfl (by decide)
      (by decide)
  · exact ((get_location_spec testLocCfg 1 7 (by decide)).2 (by decide)).1
      "unknown" rfl
  · exact ((get_location_spec testLocCfgNoDefault 1 7 (by decide)).2
      (by decide)).2 rfl

/-! ## Claim C8 -/

/-- C8: `transform_ports(ports_spec)` returns the ordered list of every port
covered by the comma-separated specification, expanding each inclusive range
`lo-hi` into `lo, lo+1, ..., hi` and tolerating whitespace after commas; in
particular the two concrete specifications of the test fixture expand as
listed. -/
theorem transform_ports_spec :
    transform_ports "1-3,5,66" = [1, 2, 3, 5, 66] ∧
    transform_ports "10-15, 19-26" =
      [10, 11, 12, 13, 14, 15, 19, 20, 21, 22, 23, 24, 25, 26] ∧
    (∀ (a b : List Char) (lo hi : Nat),
      '-' ∉ a → '-' ∉ b → ' ' ∉ a → ' ' ∉ b →
      parseDec a = some lo → parseDec b = some hi → lo ≤ hi →
      expandToken (a ++ '-' :: b) = List.range' lo (hi + 1 - lo) ∧
      ∀ n, n ∈ expandToken (a ++ '-' :: b) ↔ lo ≤ n ∧ n ≤ hi) ∧
    (∀ (a : List Char) (n : Nat), '-' ∉ a → ' ' ∉ a →
      parseDec a = some n → expandToken a = [n]) := by
  refine ⟨by decide, by decide, ?_, ?_⟩
  · intro a b lo hi hda hdb hsa hsb hpa hpb hle
    have hs : ' ' ∉ a ++ '-' :: b := by
      simp only [List.mem_append, List.mem_cons, not_or]
      exact ⟨hsa, by decide, hsb⟩
    have hsplit : splitOnChar '-' (a ++ '-' :: b) = [a, b] :=
      splitOnChar_eq_pair hda hdb
    have hexp : expandToken (a ++ '-' :: b) = List.range' lo (hi + 1 - lo) := by
      simp only [expandToken, stripSpaces_eq_self hs, hsplit, hpa, hpb]
    refine ⟨hexp, ?_⟩
    intro n
    rw [hexp, List.mem_range'_1]
    omega
  · intro a n hda hsa hpa
    have hsplit : splitOnChar '-' a = [a] := splitOnChar_eq_single hda
    simp only [expandToken, stripSpaces_eq_self hsa, hsplit, hpa]

/-- C8 witness: the range token `1-3` expands to the closed interval and a
plain token to its singleton. -/
theorem transform_ports_spec_witness :
    expandToken (['1'] ++ '-' :: ['3']) = List.range' 1 (3 + 1 - 1) ∧
    (2 ∈ expandToken (['1'] ++ '-' :: ['3']) ↔ 1 ≤ 2 ∧ 2 ≤ 3) ∧
    expandToken ['6', '6'] = [66] := by
  have h := transform_ports_spec.2.2.1 ['1'] ['3'] 1 3 (by decide) (by decide)
    (by decide) (by decide) (by decide) (by decide) (by decide)
  exact ⟨h.1, h.2 2, transform_ports_spec.2.2.2 ['6', '6'] 66 (by decide)
    (by decide) (by decide)⟩

/-! ## Claim C7 -/

/-- C7: `validate_ethertype(value)` accepts a hex string prefixed `0x`, a
bare decimal string, or a numeric literal, returning the input unchanged, iff
its numeric value lies in 0–0xFFFF (so `'0x08001'`, whose value is `0x8001`,
is accepted); it fails with `Invalid` for non-numeric strings such as `'foo'`
and for out-of-range values such as `'0x18001'` and `'350201'`. -/
theorem validate_ethertype_spec :
    (∀ v : EthInput, validate_ethertype v = Except.ok v ↔
      ∃ n, ethertypeVal v = some n ∧ n ≤ 0xFFFF) ∧
    (∀ v : EthInput, (∃ n, ethertypeVal v = some n ∧ 0xFFFF < n) →
      validate_ethertype v = Except.error "Invalid ethertype") ∧
    (∀ v : EthInput, ethertypeVal v = Option.none →
      validate_ethertype v = Except.error "Invalid ethertype") ∧
    validate_ethertype (EthInput.str "0x08001") =
      Except.ok (EthInput.str "0x08001") ∧
    ethertypeVal (EthInput.str "0x08001") = some 0x8001 ∧
    validate_ethertype (EthInput.str "foo") =
      Except.error "Invalid ethertype" ∧
    validate_ethertype (EthInput.str "0x18001") =
      Except.error "Invalid ethertype" ∧
    validate_ethertype (EthInput.str "350201") =
      Except.error "Invalid ethertype" := by
  refine ⟨?_, ?_, ?_, by decide, by decide, by decide, by decide, by decide⟩
  · intro v
    unfold validate_ethertype
    cases hv : ethertypeVal v with
    | none => simp
    | some n =>
      by_cases hn : n ≤ 0xFFFF
      · simp [hn]
      · simp [hn]
  · intro v ⟨n, hv, hn⟩
    unfold validate_ethertype
    rw [hv]
    simp [Nat.not_le.mpr hn]
  · intro v hv
    unfold validate_ethertype
    rw [hv]

/-- C7 witness: a bare decimal string in range is accepted unchanged, and a
numeric literal beyond 0xFFFF is rejected. -/
theorem validate_ethertype_spec_witness :
    validate_ethertype (EthInput.str "35020") =
      Except.ok (EthInput.str "35020") ∧
    validate_ethertype (EthInput.num 99999) =
      Except.error "Invalid ethertype" :=
  ⟨(validate_ethertype_spec.1 (EthInput.str "35020")).mpr
      ⟨35020, by decide, by decide⟩,
   validate_ethertype_spec.2.1 (EthInput.num 99999) ⟨99999, rfl, by decide⟩⟩

/-! ## Claim C6 -/

/-- C6: `validate_ip_space(value)` returns the value unchanged for a single
IPv4 or IPv6 literal, a CIDR block, or a range `addrA-addrB` whose endpoints
are the same address family with `addrA <= addrB` in address-value order; it
fails with `Invalid` for reversed ranges, mixed-family ranges, malformed CIDR
such as `192.168.322.0/24`, a range whose second endpoint is not a full
address (`192.168.3.25-43`), and triple-hyphenated strings. -/
theorem validate_ip_space_spec :
    (∀ s : String, '-' ∉ s.data → (parseIP s.data).isSome = true →
      validate_ip_space s = Except.ok s) ∧
    (∀ s : String, '-' ∉ s.data → (parseCIDR s.data).isSome = true →
      validate_ip_space s = Except.ok s) ∧
    (∀ (s : String) (a b : List Char) (fam : IPFamily) (va vb : Nat),
      s.data = a ++ '-' :: b → '-' ∉ a → '-' ∉ b →
      parseIP a = some (fam, va) → parseIP b = some (fam, vb) → va ≤ vb →
      validate_ip_space s = Except.ok s) ∧
    (∀ (s : String) (a b : List Char) (fama famb : IPFamily) (va vb : Nat),
      s.data = a ++ '-' :: b → '-' ∉ a → '-' ∉ b →
      parseIP a = some (fama, va) → parseIP b = some (famb, vb) →
      (fama ≠ famb ∨ vb < va) →
      validate_ip_space s = Except.error "Invalid IP address space") ∧
    validate_ip_space "192.168.322.0/24" =
      Except.error "Invalid IP address space" ∧
    validate_ip_space "192.168.3.25-43" =
      Except.error "Invalid IP address space" ∧
    validate_ip_space "10.1.2.3-10.1.2.5-10.1.2.8" =
      Except.error "Invalid IP address space" := by
  refine ⟨?_, ?_, ?_, ?_, by decide, by decide, by decide⟩
  · intro s hd hp
    unfold validate_ip_space
    have hok : ipSpaceOK s.data = true := by
      simp only [ipSpaceOK, splitOnChar_eq_single hd, hp, Bool.true_or]
    rw [hok]
    simp
  · intro s hd hp
    unfold validate_ip_space
    have hok : ipSpaceOK s.data = true := by
      simp only [ipSpaceOK, splitOnChar_eq_single hd, hp, Bool.or_true]
    rw [hok]
    simp
  · intro s a b fam va vb hsd hda hdb hpa hpb hle
    unfold validate_ip_space
    have hok : ipSpaceOK s.data = true := by
      simp only [ipSpaceOK, hsd, splitOnChar_eq_pair hda hdb, hpa, hpb,
        Bool.and_eq_true, decide_eq_true_eq]
      exact ⟨trivial, hle⟩
    rw [hok]
    simp
  · intro s a b fama famb va vb hsd hda hdb hpa hpb hbad
    unfold validate_ip_space
    have hok : ipSpaceOK s.data = false := by
      simp only [ipSpaceOK, hsd, splitOnChar_eq_pair hda hdb, hpa, hpb,
        Bool.and_eq_false_iff]
      rcases hbad with h | h
      · exact Or.inl (by simpa using h)
      · exact Or.inr (by simpa using Nat.not_le.mpr h)
    rw [hok]
    simp

/-- C6 witness: plain literals, CIDR and a well-ordered range are accepted
unchanged; a reversed range is rejected. -/
theorem validate_ip_space_spec_witness :
    validate_ip_space "192.168.3.4" = Except.ok "192.168.3.4" ∧
    validate_ip_space "192.168.3.0/24" = Except.ok "192.168.3.0/24" ∧
    validate_ip_space "10.1.2.2-10.1.2.3" = Except.ok "10.1.2.2-10.1.2.3" ∧
    validate_ip_space "192.168.4.25-192.168.3.58" =
      Except.error "Invalid IP address space" := by
  refine ⟨?_, ?_, ?_, ?_⟩
  · exact validate_ip_space_spec.1 "192.168.3.4" (by decide) (by decide)
  · exact validate_ip_space_spec.2.1 "192.168.3.0/24" (by decide) (by decide)
  · exact validate_ip_space_spec.2.2.1 "10.1.2.2-10.1.2.3" "10.1.2.2".data
      "10.1.2.3".data IPFamily.v4 167838210 167838211 (by decide) (by decide)
      (by decide) (by decide) (by decide) (by decide)
  · exact validate_ip_space_spec.2.2.2.1 "192.168.4.25-192.168.3.58"
      "192.168.4.25".data "192.168.3.58".data IPFamily.v4 IPFamily.v4
      3232236569 3232236346 (by decide) (by decide) (by decide) (by decide)
      (by decide) (Or.inr (by decide))

/-! ## Claim C4 -/

/-- Reading an optional boolean with default `false` yields `true` exactly
when the value is `some true`. -/
theorem getD_false_eq_true {o : Option Bool} :
    o.getD false = true ↔ o = some true := by
  cases o <;> simp

/-- C4: `check_identity(classifier_type, value, flow_packet, identities)` —
for an exact identity classifier type it returns true iff the identity store
holds a record whose relevant field (host name for LLDP, service name/alias
for DNS) equals the value case-sensitively for the flow's endpoint; for a
`_re`-suffixed type it returns true iff the compiled regular expression
matches the stored field under unanchored partial matching (so
`^.*\.example\.com` matches the full domain `pc1.example.com`); on no store
hit it returns false rather than failing. -/
theorem check_identity_spec (v : String) (pkt : PacketFields)
    (ids : List IdentityRecord) :
    (check_identity "identity_lldp_systemname" v pkt ids = true ↔
      ∃ r ∈ ids, r.harvest_type = "LLDP" ∧ lldpCorrelated pkt r = true ∧
        r.host_name = v) ∧
    (check_identity "identity_lldp_systemname_re" v pkt ids = true ↔
      ∃ r ∈ ids, r.harvest_type = "LLDP" ∧ lldpCorrelated pkt r = true ∧
        regexSearch v r.host_name = some true) ∧
    (check_identity "identity_service_dns" v pkt ids = true ↔
      ∃ r ∈ ids, r.harvest_type = "DNS" ∧ dnsCorrelated pkt r = true ∧
        (r.service_name = v ∨ r.service_alias = v)) ∧
    (check_identity "identity_service_dns_re" v pkt ids = true ↔
      ∃ r ∈ ids, r.harvest_type = "DNS" ∧ dnsCorrelated pkt r = true ∧
        (regexSearch v r.service_name = some true ∨
         regexSearch v r.service_alias = some true)) ∧
    (∀ ctype : String, check_identity ctype v pkt [] = false) ∧
    regexSearch "^.*\\.example\\.com" "pc1.example.com" = some true ∧
    check_identity "identity_lldp_systemname" "pc1.example.com" httpFlow.pkt
      [pc1Record] = true ∧
    check_identity "identity_lldp_systemname" "foo" httpFlow.pkt
      [pc1Record] = false ∧
    check_identity "identity_lldp_systemname_re" "^.*\\.example\\.com"
      httpFlow.pkt [pc1Record] = true ∧
    check_identity "identity_lldp_systemname_re" "^.*\\.example\\.org"
      httpFlow.pkt [pc1Record] = false := by
  refine ⟨?_, ?_, ?_, ?_, ?_, by decide, by decide, by decide, by decide,
    by decide⟩
  · simp [check_identity, List.any_eq_true, and_assoc]
  · simp [check_identity, List.any_eq_true, getD_false_eq_true, and_assoc]
  · simp [check_identity, List.any_eq_true, and_assoc]
  · simp [check_identity, List.any_eq_true, getD_false_eq_true, and_assoc]
  · intro ctype
    simp [check_identity]

/-! ## Claim C3 -/

/-- The executable checker agrees with the declarative conformance
predicate, proved by strong induction on the size of the document
fragment. -/
theorem conforms_aux (fuel : Nat) :
    (∀ v : PolValue, sizeOf v ≤ fuel →
      ∀ c, (satisfies c v = true ↔ Conforms c v)) ∧
    (∀ entries : List (String × PolValue), sizeOf entries ≤ fuel →
      ∀ sch, (entriesOK sch entries = true ↔ ConformsEntries sch entries)) := by
  induction fuel with
  | zero =>
    constructor
    · intro v hv
      exfalso
      cases v <;> simp at hv
    · intro entries he
      exfalso
      cases entries <;> simp at he
  | succ n ih =>
    constructor
    · intro v hv c
      cases c with
      | anyVal =>
        exact iff_of_true (by cases v <;> rfl) (Conforms.anyVal v)
      | oneOf vs =>
        cases v with
        | atom s =>
          simp only [satisfies]
          constructor
          · intro h
            exact Conforms.oneOf (by simpa using h)
          · intro h
            cases h with
            | oneOf hm => simpa using hm
        | doc entries =>
          refine iff_of_false (by simp [satisfies]) ?_
          intro h
          cases h
      | nested req opt =>
        cases v with
        | atom s =>
          refine iff_of_false (by simp [satisfies]) ?_
          intro h
          cases h
        | doc entries =>
          have hsz : sizeOf entries ≤ n := by
            simp at hv
            omega
          simp only [satisfies, Bool.and_eq_true]
          constructor
          · rintro ⟨hall, hent⟩
            refine Conforms.nested ?_ ((ih.2 entries hsz (req ++ opt)).mp hent)
            intro kc hkc
            have hany := List.all_eq_true.mp hall kc hkc
            obtain ⟨e, he, hee⟩ := List.any_eq_true.mp hany
            exact ⟨e, he, of_decide_eq_true hee⟩
          · intro h
            cases h with
            | nested hreq hent =>
              refine ⟨?_, (ih.2 entries hsz (req ++ opt)).mpr hent⟩
              rw [List.all_eq_true]
              intro kc hkc
              obtain ⟨e, he, hee⟩ := hreq kc hkc
              rw [List.any_eq_true]
              exact ⟨e, he, decide_eq_true hee⟩
    · intro entries he sch
      cases entries with
      | nil =>
        exact iff_of_true rfl (ConformsEntries.nil sch)
      | cons e rest =>
        have hsz2 : sizeOf rest ≤ n := by
          simp at he
          omega
        have hsze : sizeOf e.2 ≤ n := by
          obtain ⟨k, val⟩ := e
          simp at he ⊢
          omega
        simp only [entriesOK, Bool.and_eq_true]
        constructor
        · rintro ⟨h1, h2⟩
          cases hl : List.lookup e.1 sch with
          | none =>
            rw [hl] at h1
            cases h1
          | some c =>
            rw [hl] at h1
            exact ConformsEntries.cons c hl ((ih.1 e.2 hsze c).mp h1)
              ((ih.2 rest hsz2 sch).mp h2)
        · intro h
          cases h with
          | cons c hl hc ht =>
            rw [hl]
            exact ⟨(ih.1 e.2 hsze c).mpr hc, (ih.2 rest hsz2 sch).mpr ht⟩

/-- The checker matches declarative conformance on every fragment. -/
theorem satisfies_iff_conforms (v : PolValue) (c : Constraint) :
    satisfies c v = true ↔ Conforms c v :=
  (conforms_aux (sizeOf v)).1 v (Nat.le_refl _) c

/-- A single entry that is unknown to the schema key table, or whose value
violates the constraint its key resolves to, falsifies the entry check. -/
theorem entriesOK_eq_false_of_bad
    {sch : List (String × Constraint)} {entries : List (String × PolValue)}
    {e : String × PolValue} (he : e ∈ entries)
    (hbad : (match List.lookup e.1 sch with
             | some c => satisfies c e.2
             | Option.none => false) = false) :
    entriesOK sch entries = false := by
  induction entries with
  | nil => cases he
  | cons e' rest ih =>
    rcases List.mem_cons.mp he with h | h
    · cases h
      unfold entriesOK
      rw [hbad, Bool.false_and]
    · unfold entriesOK
      rw [ih h, Bool.and_false]

/-- C3: for every policy document fragment and schema,
`validate(logger, document, schema, context)` returns success (1) exactly
when the document conforms to the schema — in particular optional keys such
as `comment` may be absent — and fails with a process-fatal
`PolicyValidationError` when a required key is missing, an unknown key is
present (the per-key constraint check applies at every nesting level), or a
value violates its per-key constraint. -/
theorem validate_spec (d : PolValue) (sch : Schema) (ctx : String) :
    (validate d sch ctx = Except.ok 1 ↔
      Conforms (Constraint.nested sch.required sch.optionalKeys) d) ∧
    (∀ (entries : List (String × PolValue)) (k : String) (c : Constraint),
      d = PolValue.doc entries → (k, c) ∈ sch.required →
      (∀ e ∈ entries, e.1 ≠ k) →
      validate d sch ctx =
        Except.error ("PolicyValidationError: " ++ ctx)) ∧
    (∀ (entries : List (String × PolValue)) (e : String × PolValue),
      d = PolValue.doc entries → e ∈ entries →
      List.lookup e.1 (sch.required ++ sch.optionalKeys) = Option.none →
      validate d sch ctx =
        Except.error ("PolicyValidationError: " ++ ctx)) ∧
    (∀ (entries : List (String × PolValue)) (e : String × PolValue)
      (c : Constraint),
      d = PolValue.doc entries → e ∈ entries →
      List.lookup e.1 (sch.required ++ sch.optionalKeys) = some c →
      satisfies c e.2 = false →
      validate d sch ctx =
        Except.error ("PolicyValidationError: " ++ ctx)) := by
  refine ⟨?_, ?_, ?_, ?_⟩
  · unfold validate
    by_cases h : satisfies (Constraint.nested sch.required sch.optionalKeys) d
      = true
    · rw [if_pos h]
      exact iff_of_true rfl ((satisfies_iff_conforms d _).mp h)
    · rw [if_neg h]
      refine iff_of_false (by simp) ?_
      intro hc
      exact h ((satisfies_iff_conforms d _).mpr hc)
  · intro entries k c hd hk hmiss
    subst hd
    unfold validate
    have hfail : satisfies
        (Constraint.nested sch.required sch.optionalKeys)
        (PolValue.doc entries) = false := by
      unfold satisfies
      have hall : sch.required.all
          (fun kc => entries.any (fun e => e.1 = kc.1)) = false := by
        rw [List.all_eq_false]
        refine ⟨(k, c), hk, ?_⟩
        rw [Bool.not_eq_true, List.any_eq_false]
        intro e he
        simpa using hmiss e he
      rw [hall, Bool.false_and]
    rw [hfail]
    simp
  · intro entries e hd he hl
    subst hd
    unfold validate
    have hfail : satisfies
        (Constraint.nested sch.required sch.optionalKeys)
        (PolValue.doc entries) = false := by
      unfold satisfies
      rw [entriesOK_eq_false_of_bad he (by rw [hl]), Bool.and_false]
    rw [hfail]
    simp
  · intro entries e c hd he hl hviol
    subst hd
    unfold validate
    have hfail : satisfies
        (Constraint.nested sch.required sch.optionalKeys)
        (PolValue.doc entries) = false := by
      unfold satisfies
      rw [entriesOK_eq_false_of_bad he (by rw [hl]; exact hviol),
        Bool.and_false]
    rw [hfail]
    simp

/-- C3 witness: the sample top-level document with its optional comment
absent conforms and validates to 1; knocking out the required `tc_rules`
branch, adding an unknown key at the nested locations level, and setting the
enumerated `drop` action to an unlisted value each fail fatally. -/
theorem validate_spec_witness :
    Conforms (Constraint.nested sampleSchema.required sampleSchema.optionalKeys)
      goodPolicyDoc ∧
    validate goodPolicyDoc sampleSchema "top" = Except.ok 1 ∧
    validate missingKeyDoc sampleSchema "top" =
      Except.error "PolicyValidationError: top" ∧
    validate unknownNestedKeyDoc sampleSchema "top" =
      Except.error "PolicyValidationError: top" ∧
    validate badDropDoc sampleSchema "top" =
      Except.error "PolicyValidationError: top" := by
  refine ⟨(validate_spec goodPolicyDoc sampleSchema "top").1.mp (by decide),
    by decide, ?_, ?_, ?_⟩
  · exact (validate_spec missingKeyDoc sampleSchema "top").2.1
      [("qos_treatment", PolValue.atom "queues"),
       ("port_sets", PolValue.atom "sets"),
       ("locations", PolValue.doc [("locations_list", PolValue.atom "locs"),
         ("default_match", PolValue.atom "unknown")])]
      "tc_rules" Constraint.anyVal rfl (List.mem_cons_self _ _) (by decide)
  · exact (validate_spec unknownNestedKeyDoc sampleSchema "top").2.2.2
      [("tc_rules", PolValue.atom "ruleset"),
       ("qos_treatment", PolValue.atom "queues"),
       ("port_sets", PolValue.atom "sets"),
       ("locations", PolValue.doc [("locations_list", PolValue.atom "locs"),
         ("default_match", PolValue.atom "unknown"),
         ("foo", PolValue.atom "1")])]
      ("locations", PolValue.doc [("locations_list", PolValue.atom "locs"),
        ("default_match", PolValue.atom "unknown"),
        ("foo", PolValue.atom "1")])
      (Constraint.nested [("locations_list", Constraint.anyVal),
        ("default_match", Constraint.anyVal)] [])
      rfl
      (List.mem_cons_of_mem _ (List.mem_cons_of_mem _
        (List.mem_cons_of_mem _ (List.mem_cons_self _ _))))
      rfl (by decide)
  · exact (validate_spec badDropDoc sampleSchema "top").2.2.2
      [("tc_rules", PolValue.atom "ruleset"),
       ("qos_treatment", PolValue.atom "queues"),
       ("port_sets", PolValue.atom "sets"),
       ("locations", PolValue.doc [("locations_list", PolValue.atom "locs"),
         ("default_match", PolValue.atom "unknown")]),
       ("drop", PolValue.atom "controller")]
      ("drop", PolValue.atom "controller")
      (Constraint.oneOf ["at_controller", "at_controller_and_switch"])
      rfl
      (List.mem_cons_of_mem _ (List.mem_cons_of_mem _
        (List.mem_cons_of_mem _ (List.mem_cons_of_mem _
          (List.mem_cons_self _ _)))))
      rfl (by decide)

end Nmeta
